import Mathlib

set_option maxRecDepth 4096

/-!
Verification of the BRD decoder tools (simple_brd_decode.py, batch_brd_decode.py,
brd_decrypt.py): a shallow embedding of the codec, the validator and the batch
orchestration logic, with theorems checking the specification's claims.

Bytes are modelled as `Nat` values below 256 (Python `bytes` elements), buffers
as `List Nat`. Python's `~x & 0xFF` on a machine byte is embedded through `Int`
arithmetic (`~x` is `-x-1`, and `& 0xFF` on the result is `% 256`, which is
nonnegative in Python exactly as `Int.emod` is for a positive modulus).
-/

namespace BRD

/-- The BRD encoded-file signature `0x23 0xE2 0x63 0x28`
(`BRD_SIGNATURE` in batch_brd_decode.py, `ENCODED_SIGNATURE` in brd_decrypt.py). -/
def BRD_SIGNATURE : List Nat := [0x23, 0xE2, 0x63, 0x28]

/-- Model of `is_brd_encoded` of batch_brd_decode.py (and `is_encoded` of brd_decrypt.py):
`len(data) >= 4 and data[:4] == BRD_SIGNATURE`. -/
def is_brd_encoded (data : List Nat) : Bool :=
  decide (data.length ≥ 4) && decide (data.take 4 = BRD_SIGNATURE)

/-- Model of `is_brd_encoded` of simple_brd_decode.py: early return `False` when
`len(data) < 4`, otherwise compare the four leading bytes one by one. -/
def is_brd_encoded_simple (data : List Nat) : Bool :=
  if data.length < 4 then false
  else decide (data.getD 0 0 = 0x23 ∧ data.getD 1 0 = 0xE2 ∧
               data.getD 2 0 = 0x63 ∧ data.getD 3 0 = 0x28)

/-- Model of `decode_brd_byte` (simple_brd_decode.py / batch_brd_decode.py; identical to
`decode_byte` of brd_decrypt.py): CR, LF and NUL pass through, every other byte
goes through `x = ~(((c >> 6) & 3) | ((c << 2) & 0xFF)) & 0xFF`. -/
def decode_brd_byte (b : Nat) : Nat :=
  if b = 0x0D ∨ b = 0x0A ∨ b = 0x00 then b
  else
    let highBits := (b >>> 6) &&& 0x03
    let shifted := (b <<< 2) &&& 0xFF
    let combined := highBits ||| shifted
    ((-(combined : Int) - 1) % 256).toNat

/-- Model of `decode_file` of brd_decrypt.py at the buffer level: return the input
unchanged when the signature is absent, otherwise map `decode_byte` over every
byte (the four signature bytes included). -/
def decode_file_buffer (data : List Nat) : List Nat :=
  if is_brd_encoded data then data.map decode_brd_byte else data

/-- The verdict returned by `analyze_decoded_content` of brd_decrypt.py
(sections found, printable ratio, line count, `appears_valid`). -/
structure Verdict where
  sectionsFound : List (List Char)
  printableRatio : ℚ
  lineCount : Nat
  appearsValid : Bool

/-- The fixed keyword list `common_sections` of brd_decrypt.py. -/
def common_sections : List (List Char) :=
  ["var_data:".data, "Format:".data, "format:".data, "Parts:".data, "Pins1:".data,
   "Pins:".data, "Pins2:".data, "Nails:".data, "OUTLINE:".data, "NETS:".data,
   "BRDOUT:".data]

/-- Model of `analyze_decoded_content` of brd_decrypt.py, over the textual view of the
decoded buffer (Python's `decoded_data.decode(..., errors=ignore)` result) and
parametrised by Python's `str.isprintable` on single characters. Keeps every
section of `common_sections` that occurs as a substring, counts characters that
are printable or CR/LF/TAB, divides by the text length (0 for empty text), and
sets `appears_valid` to `len(sections_found) > 0 and printable_ratio > 0.7`. -/
def analyze_decoded_content (isPrintable : Char → Bool) (text : List Char) :
    Verdict :=
  let sectionsFound := common_sections.filter (fun s => decide (s <:+: text))
  let printableChars :=
    (text.filter (fun c => isPrintable c || c == '\r' || c == '\n' || c == '\t')).length
  let printableRatio : ℚ :=
    if text.isEmpty then 0 else (printableChars : ℚ) / (text.length : ℚ)
  { sectionsFound := sectionsFound
    printableRatio := printableRatio
    lineCount := (text.filter (fun c => c == '\n')).length
    appearsValid :=
      decide (sectionsFound.length > 0) && decide (printableRatio > 7/10) }

/-- Terminal outcome of one item of `BatchBRDDecoder.decode_file` /
`process_files` (batch_brd_decode.py): the existence-guard skip, the
not-encoded skip, a read failure, a write failure (reached after the
`encoded_files` counter was already bumped), a successful decode, and the
`process_files` not-found error. -/
inductive Outcome where
  | skippedExists
  | skippedNotEncoded
  | erroredRead
  | erroredWrite
  | decodedOk
  | erroredNotFound
deriving DecidableEq

/-- A filesystem operation attempted by `BatchBRDDecoder.decode_file`: opening
the input for reading, or writing a buffer to the output path. -/
inductive FsOp where
  | readInput
  | writeOutput (data : List Nat)
deriving DecidableEq

/-- Model of `BatchBRDDecoder.decode_file` of batch_brd_decode.py as a function of the
environment: whether the output path exists, the overwrite flag, the read
result (`none` models a read that raises), and whether the write succeeds.
Returns the terminal outcome together with the trace of attempted filesystem
operations, mirroring the source line by line: the existence guard runs before
any read; a not-encoded input is counted as a skip without any write; an
encoded input is decoded byte by byte and the result written. -/
def batch_decode_file (outputExists overwrite : Bool)
    (readRes : Option (List Nat)) (writeOk : Bool) : Outcome × List FsOp :=
  if outputExists && !overwrite then (.skippedExists, [])
  else
    match readRes with
    | none => (.erroredRead, [.readInput])
    | some data =>
      if !(is_brd_encoded data) then (.skippedNotEncoded, [.readInput])
      else if writeOk then
        (.decodedOk, [.readInput, .writeOutput (data.map decode_brd_byte)])
      else
        (.erroredWrite, [.readInput, .writeOutput (data.map decode_brd_byte)])

/-- The `stats` dictionary of `BatchBRDDecoder`. -/
structure BatchStats where
  total : Nat
  encoded : Nat
  decoded : Nat
  errors : Nat
  skipped : Nat
deriving DecidableEq

/-- The counter increments performed while one item reaches its terminal
outcome: `total_files` is bumped once per item by the caller loop, `skipped`
on either skip, `errors` on any failure, `encoded_files` as soon as the
signature was recognised (so also on a later write failure), and
`decoded_files` only on success. -/
def statsDelta : Outcome → BatchStats
  | .skippedExists => ⟨1, 0, 0, 0, 1⟩
  | .skippedNotEncoded => ⟨1, 0, 0, 0, 1⟩
  | .erroredRead => ⟨1, 0, 0, 1, 0⟩
  | .erroredWrite => ⟨1, 1, 0, 1, 0⟩
  | .decodedOk => ⟨1, 1, 1, 0, 0⟩
  | .erroredNotFound => ⟨1, 0, 0, 1, 0⟩

/-- Pointwise sum of two stats records. -/
def addStats (a b : BatchStats) : BatchStats :=
  ⟨a.total + b.total, a.encoded + b.encoded, a.decoded + b.decoded,
   a.errors + b.errors, a.skipped + b.skipped⟩

/-- The all-zero initial `stats` dictionary. -/
def zeroStats : BatchStats := ⟨0, 0, 0, 0, 0⟩

/-- The statistics accumulated over a run’s list of per-item outcomes. -/
def runStats (os : List Outcome) : BatchStats :=
  os.foldr (fun o acc => addStats (statsDelta o) acc) zeroStats

/-- Whether an outcome incremented the `errors` counter. -/
def isErrored : Outcome → Bool
  | .erroredRead | .erroredWrite | .erroredNotFound => true
  | _ => false

/-- The exit status computed at the end of `main` in batch_brd_decode.py:
`sys.exit(1)` when `stats[errors] > 0`, otherwise the interpreter exits 0. -/
def batchExitCode (s : BatchStats) : Nat := if s.errors > 0 then 1 else 0

/-- One input file as `process_files` sees it: whether the path exists at
processing time, plus the environment `decode_file` will run against. -/
structure BatchItem where
  pathExists : Bool
  outputExists : Bool
  readRes : Option (List Nat)
  writeOk : Bool

/-- One iteration of the `process_files` loop (batch_brd_decode.py): a path
that fails the existence check is counted as an error and skipped over,
otherwise `decode_file` runs. -/
def process_file_item (overwrite : Bool) (it : BatchItem) : Outcome :=
  if !it.pathExists then .erroredNotFound
  else (batch_decode_file it.outputExists overwrite it.readRes it.writeOk).1

/-- One command-line input of `main` in batch_brd_decode.py after resolution:
a wildcard pattern with its glob matches, a literal path naming an existing
file, a literal path naming a directory (with the `*.brd` files found inside),
or a literal path that exists neither as file nor directory — `main` prints
`Warning: Not found` for the latter and adds it to no list. -/
inductive InputSpec where
  | wildcard (ms : List BatchItem)
  | literalFile (item : BatchItem)
  | literalDir (items : List BatchItem)
  | missing

/-- The files an input specification contributes to the processing loops of
`main`: a missing literal path contributes nothing. -/
def collectFiles : InputSpec → List BatchItem
  | .wildcard ms => ms
  | .literalFile it => [it]
  | .literalDir its => its
  | .missing => []

/-- The statistics of a whole batch_brd_decode.py run over resolved inputs. -/
def batchMainStats (overwrite : Bool) (inputs : List InputSpec) : BatchStats :=
  runStats (((inputs.map collectFiles).flatten).map (process_file_item overwrite))

/-- Model of `decrypt_file` of brd_decrypt.py, parametrised like
`analyze_decoded_content` by the textual interpretation of a byte buffer
(`toText`, Python's lossy utf-8 decode) and the printability test. A missing
input raises (`Except.error`); a non-encoded input is copied unchanged when an
output path was given and the call returns `False`; an encoded input is
decoded, written when an output path was given, and the call returns the
validator's `appears_valid`. The second component is the buffer written, if
any. -/
def decrypt_file (isPrintable : Char → Bool) (toText : List Nat → List Char)
    (pathExists : Bool) (data : List Nat) (hasOutput : Bool) :
    Except Unit (Bool × Option (List Nat)) :=
  if !pathExists then .error ()
  else if !(is_brd_encoded data) then
    .ok (false, if hasOutput then some data else none)
  else
    let decoded := decode_file_buffer data
    let verdict := analyze_decoded_content isPrintable (toText decoded)
    .ok (verdict.appearsValid, if hasOutput then some decoded else none)

/-- Whether one brd_decrypt.py batch item returned `True` from `decrypt_file`
(an exception, `Except.error`, was caught and counts nothing). -/
def isOkTrue : Except Unit Bool → Bool
  | .ok true => true
  | _ => false

/-- Whether one brd_decrypt.py batch item raised (its exception was caught and
reported, the loop moved on). -/
def isDecryptError : Except Unit Bool → Bool
  | .error _ => true
  | _ => false

/-- Model of `success_count` of brd_decrypt.py's batch mode: the per-file results that
returned `True`. -/
def decryptSuccessCount (results : List (Except Unit Bool)) : Nat :=
  results.countP isOkTrue

/-- The exit status of brd_decrypt.py's batch mode: `sys.exit(1)` fires only
when the glob matched no files at all; once processing starts, `main` falls
through to a normal exit 0 whatever the per-file results were. -/
def decryptBatchExitCode (results : List (Except Unit Bool)) : Nat :=
  if results.isEmpty then 1 else 0

/-- Model of `decode_brd_file` of simple_brd_decode.py: read failure returns `False`;
a non-encoded input is written unchanged (returning `True` unless the write
fails); an encoded input is decoded byte by byte and written. The second
component is the buffer successfully written, if any. -/
def decode_brd_file (readRes : Option (List Nat)) (writeOk : Bool) :
    Bool × Option (List Nat) :=
  match readRes with
  | none => (false, none)
  | some data =>
    if !(is_brd_encoded data) then
      if writeOk then (true, some data) else (false, none)
    else
      if writeOk then (true, some (data.map decode_brd_byte)) else (false, none)

/-- Helper: the inverse of the non-control branch of `decode_brd_byte`
(complement the byte, then rotate it right by two bit positions). -/
def encode_brd_byte (y : Nat) : Nat :=
  let c := 255 - y
  ((c >>> 2) ||| ((c &&& 0x03) <<< 6)) &&& 0xFF

/-- Helper: `encode_brd_byte` undoes `decode_brd_byte` on every byte outside
the CR/LF/NUL pass-through set. -/
theorem encode_decode_brd_byte (b : Fin 256)
    (hb : ¬(b.val = 0x0D ∨ b.val = 0x0A ∨ b.val = 0x00)) :
    encode_brd_byte (decode_brd_byte b.val) = b.val := by
  revert hb; revert b; decide

end BRD

namespace BRD

/-- C1: on the control bytes CR, LF, NUL `decode_brd_byte` is the identity; on
each of the remaining 253 byte values it equals the bit formula
`(~(((b >> 6) & 0x03) | ((b << 2) & 0xFF))) & 0xFF` (here rendered as the
8-bit complement, i.e. xor with 0xFF); and `decode_brd_byte 0x41 = 0xFA`. -/
theorem decode_byte_formula (b : Fin 256) :
    ((b.val = 0x0D ∨ b.val = 0x0A ∨ b.val = 0x00) → decode_brd_byte b.val = b.val) ∧
    (¬(b.val = 0x0D ∨ b.val = 0x0A ∨ b.val = 0x00) →
      decode_brd_byte b.val =
        Nat.xor (((b.val >>> 6) &&& 0x03) ||| ((b.val <<< 2) &&& 0xFF)) 0xFF) ∧
    decode_brd_byte 0x41 = 0xFA := by
  revert b; decide

/-- C1 witness: the formula clauses evaluated at the concrete bytes 0x0D and
0x41. -/
theorem decode_byte_formula_witness :
    decode_brd_byte 0x0D = 0x0D ∧
    decode_brd_byte 0x41 =
      Nat.xor ((((0x41 : Nat) >>> 6) &&& 0x03) ||| (((0x41 : Nat) <<< 2) &&& 0xFF)) 0xFF :=
  ⟨(decode_byte_formula (⟨0x0D, by decide⟩ : Fin 256)).1 (by decide),
   (decode_byte_formula (⟨0x41, by decide⟩ : Fin 256)).2.1 (by decide)⟩

/-- C3 counterexample: `decode_brd_byte` is not injective on the full byte
range — 0xFF is mapped to 0x00, colliding with the pass-through byte 0x00. -/
theorem decode_byte_collision :
    decode_brd_byte 0xFF = 0x00 ∧ decode_brd_byte 0x00 = 0x00 ∧ (0xFF : Nat) ≠ 0x00 := by
  decide

/-- C3 amended: `decode_brd_byte` is injective on the bytes outside the
CR/LF/NUL pass-through set, so the encoded byte is recoverable from the decoded
byte for every non-control byte; on all 256 values it is not injective
(0x00/0xFF, 0x0A/0x7D and 0x0D/0xBC collide pairwise). -/
theorem decode_byte_injective_noncontrol (a b : Fin 256)
    (ha : ¬(a.val = 0x0D ∨ a.val = 0x0A ∨ a.val = 0x00))
    (hb : ¬(b.val = 0x0D ∨ b.val = 0x0A ∨ b.val = 0x00))
    (h : decode_brd_byte a.val = decode_brd_byte b.val) : a = b := by
  have ha' := encode_decode_brd_byte a ha
  have hb' := encode_decode_brd_byte b hb
  apply Fin.ext
  rw [← ha', ← hb', h]

/-- C3 amended witness: the injectivity theorem applied at the byte 0x41. -/
theorem decode_byte_injective_noncontrol_witness :
    (65 : Fin 256) = (65 : Fin 256) :=
  decode_byte_injective_noncontrol 65 65 (by decide) (by decide) (by decide)

/-- C8: `is_brd_encoded data` is true exactly when `data` has at least four
bytes and starts with the signature 0x23 0xE2 0x63 0x28; any shorter buffer is
rejected; and the index-by-index variant of simple_brd_decode.py agrees with
the slice-comparison variant of batch_brd_decode.py on every buffer. -/
theorem is_encoded_iff (data : List Nat) :
    (is_brd_encoded data = true ↔
      4 ≤ data.length ∧ data.take 4 = [0x23, 0xE2, 0x63, 0x28]) ∧
    (data.length < 4 → is_brd_encoded data = false) ∧
    is_brd_encoded_simple data = is_brd_encoded data := by
  refine ⟨?_, ?_, ?_⟩
  · simp [is_brd_encoded, BRD_SIGNATURE]
  · intro h
    simp [is_brd_encoded, BRD_SIGNATURE]
    intro h4
    omega
  · rcases data with _ | ⟨a, _ | ⟨b, _ | ⟨c, _ | ⟨d, t⟩⟩⟩⟩ <;>
      simp [is_brd_encoded_simple, is_brd_encoded, BRD_SIGNATURE, List.getD]

/-- C8 witness: the characterisation applied to a five-byte encoded buffer and
to a three-byte buffer. -/
theorem is_encoded_iff_witness :
    is_brd_encoded [0x23, 0xE2, 0x63, 0x28, 0x41] = true ∧
    is_brd_encoded [0x00, 0x01, 0x02] = false :=
  ⟨(is_encoded_iff [0x23, 0xE2, 0x63, 0x28, 0x41]).1.mpr ⟨by decide, by decide⟩,
   (is_encoded_iff [0x00, 0x01, 0x02]).2.1 (by decide)⟩

/-- C2: `decode_file` of brd_decrypt.py at the buffer level is the identity on
a buffer without the signature, never changes the length, and on an encoded
buffer replaces the byte at every index — the four signature bytes included —
by `decode_brd_byte` of the corresponding input byte. -/
theorem decode_buffer_contract (data : List Nat) :
    (is_brd_encoded data = false → decode_file_buffer data = data) ∧
    (decode_file_buffer data).length = data.length ∧
    (is_brd_encoded data = true → ∀ i, i < data.length →
      (decode_file_buffer data).getD i 0 = decode_brd_byte (data.getD i 0)) := by
  refine ⟨?_, ?_, ?_⟩
  · intro h
    simp [decode_file_buffer, h]
  · by_cases h : is_brd_encoded data <;> simp [decode_file_buffer, h]
  · intro h i hi
    simp only [decode_file_buffer, h, if_true]
    rw [List.getD_eq_getElem?_getD, List.getD_eq_getElem?_getD, List.getElem?_map,
        List.getElem?_eq_getElem hi]
    simp

/-- C2 witness: the contract applied to the non-encoded buffer `00 01 02` and
to the encoded buffer `23 E2 63 28 41`, checking index 4 (0x41 ↦ 0xFA) and
index 0 (the signature byte 0x23 is itself decoded). -/
theorem decode_buffer_contract_witness :
    decode_file_buffer [0x00, 0x01, 0x02] = [0x00, 0x01, 0x02] ∧
    (decode_file_buffer [0x23, 0xE2, 0x63, 0x28, 0x41]).getD 4 0 =
      decode_brd_byte 0x41 ∧
    (decode_file_buffer [0x23, 0xE2, 0x63, 0x28, 0x41]).getD 0 0 =
      decode_brd_byte 0x23 :=
  ⟨(decode_buffer_contract [0x00, 0x01, 0x02]).1 (by decide),
   (decode_buffer_contract [0x23, 0xE2, 0x63, 0x28, 0x41]).2.2 (by decide) 4 (by decide),
   (decode_buffer_contract [0x23, 0xE2, 0x63, 0x28, 0x41]).2.2 (by decide) 0 (by decide)⟩

/-- C4 counterexample: in batch_brd_decode.py a successfully read input
without the signature is NOT copied unchanged to the output path — with the
output path absent and overwrite off, `decode_file` on the readable non-encoded
buffer `00 01 02` transitions to the not-encoded skip, attempts no write (the
trace holds the read only), and bumps the skip counter, contradicting the
claimed CopiedUnchanged outcome. -/
theorem batch_not_encoded_counterexample :
    batch_decode_file false false (some [0x00, 0x01, 0x02]) true =
      (Outcome.skippedNotEncoded, [FsOp.readInput]) ∧
    (statsDelta Outcome.skippedNotEncoded).skipped = 1 ∧
    Outcome.skippedNotEncoded ≠ Outcome.decodedOk := by
  decide

/-- C4 amended: in the batch tool a successfully read, non-encoded input
transitions to Skipped — the skip counter is bumped and nothing is written;
the single-file tool simple_brd_decode.py is the one that writes the original
bytes verbatim (returning success) for a non-encoded input. -/
theorem batch_not_encoded_skips_simple_copies :
    (∀ (ow wOk : Bool) (data : List Nat), is_brd_encoded data = false →
      batch_decode_file false ow (some data) wOk =
        (Outcome.skippedNotEncoded, [FsOp.readInput]) ∧
      (statsDelta Outcome.skippedNotEncoded).skipped = 1) ∧
    (∀ data : List Nat, is_brd_encoded data = false →
      decode_brd_file (some data) true = (true, some data)) := by
  constructor
  · intro ow wOk data h
    refine ⟨?_, rfl⟩
    simp [batch_decode_file, h]
  · intro data h
    simp [decode_brd_file, h]

/-- C4 amended witness: both clauses applied to the concrete non-encoded
buffer `01 02 03` (with overwrite and write-success flags set). -/
theorem batch_not_encoded_skips_simple_copies_witness :
    batch_decode_file false true (some [0x01, 0x02, 0x03]) false =
      (Outcome.skippedNotEncoded, [FsOp.readInput]) ∧
    decode_brd_file (some [0x01, 0x02, 0x03]) true = (true, some [0x01, 0x02, 0x03]) :=
  ⟨(batch_not_encoded_skips_simple_copies.1 true false [0x01, 0x02, 0x03] (by decide)).1,
   batch_not_encoded_skips_simple_copies.2 [0x01, 0x02, 0x03] (by decide)⟩

/-- C6: with the output path present and overwrite disabled, `decode_file`
of batch_brd_decode.py terminates as Skipped with the skip counter bumped,
attempting no filesystem operation at all — the input is never opened and
nothing is written, whatever the input file holds and whether a write would
have succeeded. -/
theorem skip_guard_no_fs_ops (readRes : Option (List Nat)) (writeOk : Bool) :
    batch_decode_file true false readRes writeOk = (Outcome.skippedExists, []) ∧
    (statsDelta Outcome.skippedExists).skipped = 1 ∧
    (statsDelta Outcome.skippedExists).errors = 0 :=
  ⟨rfl, rfl, rfl⟩

/-- Helper: each outcome bumps the `errors` counter exactly when it is an
errored outcome. -/
theorem statsDelta_errors (o : Outcome) :
    (statsDelta o).errors = if isErrored o then 1 else 0 := by
  cases o <;> rfl

/-- Helper: the `errors` field of a run's statistics counts the errored
outcomes. -/
theorem runStats_errors (os : List Outcome) :
    (runStats os).errors = os.countP isErrored := by
  induction os with
  | nil => rfl
  | cons o t ih =>
    show (addStats (statsDelta o) (runStats t)).errors = _
    rw [List.countP_cons]
    simp only [addStats, statsDelta_errors, ih]
    omega

/-- C5 counterexample: a brd_decrypt.py batch run in which the single file
raised (so its outcome was errored) still exits with status zero — batch mode
of brd_decrypt.py never inspects the per-file results when computing its exit
status. -/
theorem decrypt_batch_exit_counterexample :
    decryptBatchExitCode [Except.error ()] = 0 ∧
    ([Except.error ()].any isDecryptError) = true := by
  decide

/-- C5 amended: the batch tool batch_brd_decode.py exits non-zero exactly when
some item's outcome was errored; brd_decrypt.py's batch mode, however, exits
zero on every run that processed at least one file, whatever the per-file
results (it exits non-zero only when the pattern matched no files at all). -/
theorem batch_exit_iff_errored :
    (∀ os : List Outcome,
      batchExitCode (runStats os) ≠ 0 ↔ ∃ o ∈ os, isErrored o = true) ∧
    (∀ results : List (Except Unit Bool), results ≠ [] →
      decryptBatchExitCode results = 0) := by
  constructor
  · intro os
    rw [batchExitCode]
    constructor
    · intro h
      have hpos : 0 < (runStats os).errors := by
        by_contra hc
        simp [Nat.not_lt, Nat.le_zero] at hc
        simp [hc] at h
      rw [runStats_errors] at hpos
      exact List.countP_pos_iff.mp hpos
    · intro ⟨o, ho, he⟩
      have hpos : 0 < os.countP isErrored := List.countP_pos_iff.mpr ⟨o, ho, he⟩
      rw [← runStats_errors] at hpos
      simp [hpos]
  · intro results h
    rw [decryptBatchExitCode, if_neg]
    simp [h]

/-- C5 amended witness: a batch_brd_decode.py run with one read error exits
non-zero, one with a single skip exits zero is implied by the iff, and a
brd_decrypt.py batch run over one successful file exits zero. -/
theorem batch_exit_iff_errored_witness :
    batchExitCode (runStats [Outcome.erroredRead]) ≠ 0 ∧
    decryptBatchExitCode [Except.ok true] = 0 :=
  ⟨(batch_exit_iff_errored.1 [Outcome.erroredRead]).mpr
      ⟨Outcome.erroredRead, by decide, by decide⟩,
   batch_exit_iff_errored.2 [Except.ok true] (by simp)⟩

/-- C7: the validator's printable ratio is 0 on an empty textual view and
otherwise the number of printable-or-CR/LF/TAB characters divided by the total
character count, and `appears_valid` holds exactly when at least one keyword
was found and the ratio exceeds 0.7. -/
theorem validator_verdict (isPrintable : Char → Bool) (text : List Char) :
    (text = [] → (analyze_decoded_content isPrintable text).printableRatio = 0) ∧
    (text ≠ [] → (analyze_decoded_content isPrintable text).printableRatio =
      ((text.countP
          (fun c => isPrintable c || c == '\r' || c == '\n' || c == '\t') : ℚ)) /
        (text.length : ℚ)) ∧
    ((analyze_decoded_content isPrintable text).appearsValid = true ↔
      (analyze_decoded_content isPrintable text).sectionsFound ≠ [] ∧
      (analyze_decoded_content isPrintable text).printableRatio > 7 / 10) := by
  refine ⟨?_, ?_, ?_⟩
  · intro h
    simp [analyze_decoded_content, h]
  · intro h
    simp [analyze_decoded_content, List.isEmpty_iff, h, List.countP_eq_length_filter]
  · simp [analyze_decoded_content, List.length_pos, Bool.and_eq_true,
      decide_eq_true_iff]

/-- C7 witness: the ratio clauses applied to the empty text and to the
single-character text `"a"` with an all-printable printability test. -/
theorem validator_verdict_witness :
    (analyze_decoded_content (fun _ => true) []).printableRatio = 0 ∧
    (analyze_decoded_content (fun _ => true) ['a']).printableRatio =
      ((([('a' : Char)].countP
          (fun c => (fun _ => true) c || c == '\r' || c == '\n' || c == '\t')) : ℚ)) /
        (([('a' : Char)].length : ℚ)) :=
  ⟨(validator_verdict (fun _ => true) []).1 rfl,
   (validator_verdict (fun _ => true) ['a']).2.1 (by simp)⟩

/-- C9 counterexample: a batch_brd_decode.py run whose only input is a literal
path that exists neither as a file nor as a directory ends with every counter
at zero — `main` prints a warning and drops the item, so neither the total nor
the error counter is incremented, contradicting the claim that such an item
enters the pipeline and is counted as errored. -/
theorem missing_literal_not_counted :
    (batchMainStats false [InputSpec.missing]).total = 0 ∧
    (batchMainStats false [InputSpec.missing]).errors = 0 :=
  ⟨rfl, rfl⟩

/-- C9 amended: a path that reaches the `process_files` loop and fails its
existence check at processing time is counted as errored (total and error
counters both bumped); but a literal command-line path that does not exist is
filtered out by `main` with a warning before the loop, contributing no files
and leaving every counter of the run untouched. -/
theorem not_found_counting (ow : Bool) (it : BatchItem)
    (h : it.pathExists = false) :
    process_file_item ow it = Outcome.erroredNotFound ∧
    (statsDelta Outcome.erroredNotFound).errors = 1 ∧
    (statsDelta Outcome.erroredNotFound).total = 1 ∧
    collectFiles InputSpec.missing = [] ∧
    batchMainStats ow [InputSpec.missing] = zeroStats := by
  refine ⟨?_, rfl, rfl, rfl, rfl⟩
  simp [process_file_item, h]

/-- C9 amended witness: the counting theorem applied to a concrete item whose
path is missing at processing time. -/
theorem not_found_counting_witness :
    process_file_item false
      ⟨false, false, none, true⟩ = Outcome.erroredNotFound :=
  (not_found_counting false ⟨false, false, none, true⟩ rfl).1

/-- C10: `decrypt_file` of brd_decrypt.py returns the validator's
`appears_valid` verdict on an encoded input (writing the decoded bytes when an
output path was given), returns `False` on a non-encoded input (which is
copied unchanged when an output path was given), and batch mode's success
count ignores results that returned `False` — so a decoded-and-written file
whose text has no keyword or too low a printable ratio counts as not
successfully processed. -/
theorem decrypt_file_returns_validity (isPrintable : Char → Bool)
    (toText : List Nat → List Char) (data : List Nat) (hasOutput : Bool) :
    (is_brd_encoded data = true →
      decrypt_file isPrintable toText true data hasOutput =
        Except.ok
          ((analyze_decoded_content isPrintable
              (toText (data.map decode_brd_byte))).appearsValid,
           if hasOutput then some (data.map decode_brd_byte) else none)) ∧
    (is_brd_encoded data = false →
      decrypt_file isPrintable toText true data hasOutput =
        Except.ok (false, if hasOutput then some data else none)) ∧
    (∀ rest : List (Except Unit Bool),
      decryptSuccessCount (Except.ok false :: rest) = decryptSuccessCount rest) := by
  refine ⟨?_, ?_, ?_⟩
  · intro h
    simp [decrypt_file, decode_file_buffer, h]
  · intro h
    simp [decrypt_file, h]
  · intro rest
    simp [decryptSuccessCount, List.countP_cons, isOkTrue]

/-- C10 witness: the encoded clause at the buffer `23 E2 63 28 41` (under a
fixed textual interpretation) and the non-encoded clause at `00 01 02`. -/
theorem decrypt_file_returns_validity_witness :
    decrypt_file (fun _ => true) (fun _ => []) true [0x23, 0xE2, 0x63, 0x28, 0x41] true =
      Except.ok
        ((analyze_decoded_content (fun _ => true)
            ((fun _ => ([] : List Char)) ([0x23, 0xE2, 0x63, 0x28, 0x41].map decode_brd_byte))).appearsValid,
         if true then some ([0x23, 0xE2, 0x63, 0x28, 0x41].map decode_brd_byte) else none) ∧
    decrypt_file (fun _ => true) (fun _ => []) true [0x00, 0x01, 0x02] false =
      Except.ok (false, if true then none else none) :=
  ⟨(decrypt_file_returns_validity (fun _ => true) (fun _ => [])
      [0x23, 0xE2, 0x63, 0x28, 0x41] true).1 (by decide),
   (decrypt_file_returns_validity (fun _ => true) (fun _ => [])
      [0x00, 0x01, 0x02] false).2.1 (by decide)⟩

end BRD
